import Mathlib

/-!
Verification development for the pao-quentinho-backend repository.

The definitions below are a shallow embedding of `src/index.js` (and the
schema in `src/migrate.js`): the fornada-notification sweep
(`checkFornadasAndNotify`), its time-window evaluation, the push dispatch
and expired-subscription cleanup, the subscribe/link storage operations,
and the reservation-quota route.  JavaScript numbers on the relevant code
paths are integers, modelled as `Int`; `NaN` flowing out of `Number(...)`
is modelled as `Option.none`; promise rejections and SQL failures are
modelled with `Except`.
-/

set_option maxHeartbeats 1000000

namespace PaoQuentinho

/-! ## JavaScript primitives used by the source -/

/-- Truthiness of a JS string-or-undefined value: `undefined` and the empty
string are falsy, every other string is truthy. -/
def jsTruthy : Option String → Bool
  | none => false
  | some s => !(s == "")

def isWsChar (c : Char) : Bool :=
  c == ' ' || c == '\t' || c == '\n' || c == '\r'

def trimWsChars (cs : List Char) : List Char :=
  ((cs.dropWhile isWsChar).reverse.dropWhile isWsChar).reverse

def digitsToNat (cs : List Char) : Nat :=
  cs.foldl (fun n c => n * 10 + (c.toNat - 48)) 0

/-- JS `Number(s)` on the integer-decimal fragment exercised by the program:
whitespace-only strings coerce to `0`, optionally signed digit strings to
their value, and anything else (e.g. `"N/A"`, a lone sign, interior text)
to `NaN`, modelled as `none`.  (The time-of-day components the sweep feeds
in are decimal integers or garbage, never fractional/hex literals.) -/
def jsNumber (s : String) : Option Int :=
  let cs := trimWsChars s.toList
  match cs with
  | [] => some 0
  | '-' :: rest =>
      if rest ≠ [] ∧ rest.all Char.isDigit then some (-(digitsToNat rest : Int)) else none
  | '+' :: rest =>
      if rest ≠ [] ∧ rest.all Char.isDigit then some (digitsToNat rest : Int) else none
  | _ =>
      if cs.all Char.isDigit then some (digitsToNat cs : Int) else none

/-- JS `s.split(sep)` for a single-character separator, on char lists. -/
def splitCharsAux (sep : Char) : List Char → List Char → List (List Char)
  | [], acc => [acc.reverse]
  | c :: cs, acc =>
      if c == sep then acc.reverse :: splitCharsAux sep cs []
      else splitCharsAux sep cs (c :: acc)

def jsSplit (sep : Char) (s : String) : List String :=
  (splitCharsAux sep s.toList []).map (fun cs => ⟨cs⟩)

/-- JS `s.replace(pat, rep)` with a plain-string pattern: only the first
occurrence is replaced. -/
def replaceFirstAux (p r : List Char) : List Char → List Char
  | [] => []
  | c :: cs =>
      if List.isPrefixOf p (c :: cs) then r ++ (c :: cs).drop p.length
      else c :: replaceFirstAux p r cs

def jsReplaceFirst (pat rep s : String) : String :=
  match s.toList with
  | [] => if pat.toList = [] then rep else s
  | cs => ⟨replaceFirstAux pat.toList rep.toList cs⟩

def uriUnreservedChar (c : Char) : Bool :=
  c.isAlphanum || c == '-' || c == '_' || c == '.' || c == '!' || c == '~' ||
    c == '*' || c == Char.ofNat 39 || c == '(' || c == ')'

def hexUpper (n : Nat) : Char :=
  if n < 10 then Char.ofNat (48 + n) else Char.ofNat (55 + n)

def pctEncodeByte (b : Nat) : List Char :=
  ['%', hexUpper (b / 16), hexUpper (b % 16)]

def utf8BytesOfScalar (n : Nat) : List Nat :=
  if n < 128 then [n]
  else if n < 2048 then [192 + n / 64, 128 + n % 64]
  else if n < 65536 then [224 + n / 4096, 128 + (n / 64) % 64, 128 + n % 64]
  else [240 + n / 262144, 128 + (n / 4096) % 64, 128 + (n / 64) % 64, 128 + n % 64]

/-- JS `encodeURIComponent`: unreserved characters pass through, everything
else is percent-encoded byte-wise in UTF-8. -/
def encodeURIComponent (s : String) : String :=
  ⟨s.toList.foldr
    (fun c acc =>
      (if uriUnreservedChar c then [c]
       else (utf8BytesOfScalar c.toNat).foldr (fun b a => pctEncodeByte b ++ a) []) ++ acc)
    []⟩

/-! ## Time Window Evaluator (src/index.js lines 1007-1021) -/

/-- `fornadaTime.split(':').map(Number)` destructured to hours/minutes and
combined as `(fornadaHours * 60) + fornadaMinutes`; a missing minutes
component (`undefined`) or a `NaN` component makes the total `NaN`. -/
def parseFornadaMinutes (t : String) : Option Int :=
  let parts := jsSplit ':' t
  match jsNumber (parts.headD ""), parts.get? 1 with
  | some h, some ms =>
      match jsNumber ms with
      | some m => some (h * 60 + m)
      | none => none
  | _, _ => none

/-- `currentMinutesSinceMidnight >= notification1hBefore && currentMinutesSinceMidnight < notification1hBefore + 5`
with `notification1hBefore = fornadaTotalMinutes - 60`. -/
def shouldNotify1h (target now : Int) : Bool :=
  decide (now ≥ target - 60) && decide (now < target - 60 + 5)

/-- `currentMinutesSinceMidnight >= notification5minBefore && currentMinutesSinceMidnight < notification5minBefore + 5`
with `notification5minBefore = fornadaTotalMinutes - 5`. -/
def shouldNotify5min (target now : Int) : Bool :=
  decide (now ≥ target - 5) && decide (now < target - 5 + 5)

/-- Both window tests on a possibly-`NaN` target total: every comparison
against `NaN` is false in JS, so a failed parse matches neither window. -/
def winTest (target : Option Int) (now : Int) : Bool × Bool :=
  match target with
  | none => (false, false)
  | some t => (shouldNotify1h t now, shouldNotify5min t now)

/-! ## Fornada event shapes (src/index.js lines 995-1005) -/

/-- `proximaFornada` entries: legacy bare time string, or the rich object
`{ id, time, description }` whose fields may each be absent. -/
inductive FornadaItem
  | legacy (s : String)
  | rich (id : Option String) (time : Option String) (description : Option String)
deriving DecidableEq, Repr

/-- The hybrid extraction: for a string item only `fornadaTime` is set; for
an object item `time`, `id` and `description` are read off the object.
Returns `(fornadaTime, fornadaId, fornadaDescription)`. -/
def itemFields : FornadaItem → Option String × Option String × Option String
  | .legacy s => (some s, none, none)
  | .rich id time desc => (time, id, desc)

/-- The full per-item window evaluation pipeline: the `if (fornadaTime)`
truthiness guard followed by parsing and the two window tests. -/
def itemWindows (it : FornadaItem) (now : Int) : Bool × Bool :=
  if jsTruthy (itemFields it).1 then
    winTest (parseFornadaMinutes ((itemFields it).1.getD "")) now
  else (false, false)

/-! ## Subscriptions, push results and the dispatcher
(src/index.js lines 1027-1093, and the same pattern at 850-925) -/

/-- A push subscription blob: the core reads only its `endpoint`; the rest
(`keys` etc.) is carried opaquely. -/
structure Subscription where
  endpoint : String
  keys : String
deriving DecidableEq, Repr

/-- Outcome of one `webpush.sendNotification` promise as seen through
`Promise.allSettled`: fulfilled, or rejected with the transport's HTTP
status code. -/
inductive PushResult
  | fulfilled
  | rejected (statusCode : Int)
deriving DecidableEq, Repr

/-- The payload `notification` object built by the sweep (title, body, icon
and the two `onActionClick` deep links). -/
structure Payload where
  title : String
  body : String
  icon : String
  defaultUrl : String
  reserveUrl : String
deriving DecidableEq, Repr

/-- `subscriptions.map(sub => webpush.sendNotification(sub, payload))`
awaited with `Promise.allSettled`: one result per subscription, in input
order. -/
def sendBatch (pushOutcome : Subscription → PushResult) (subs : List Subscription) :
    List PushResult :=
  subs.map pushOutcome

/-- The `results.forEach((result, index) => ...)` cleanup loop: for every
result rejected with status 410 a `DELETE FROM subscriptions` for that
subscription's endpoint is issued fire-and-forget; a failing delete is only
logged (`.catch`), never rethrown.  Returns (delete requests issued, logged
delete errors), both in batch order. -/
def cleanupExpired (deleteOutcome : String → Except String Unit) :
    List (Subscription × PushResult) → List String × List String
  | [] => ([], [])
  | (s, r) :: rest =>
      if r = PushResult.rejected 410 then
        let tail := cleanupExpired deleteOutcome rest
        match deleteOutcome s.endpoint with
        | .ok _ => (s.endpoint :: tail.1, tail.2)
        | .error e => (s.endpoint :: tail.1, e :: tail.2)
      else cleanupExpired deleteOutcome rest

/-! ## The sweep environment and orchestrator (src/index.js lines 959-1103) -/

/-- Everything `checkFornadasAndNotify` consumes from the outside world:
the two storage reads, the clock, the per-establishment subscription
lookup, per-subscription delivery outcomes, delete outcomes, the stream of
`Math.floor(Math.random() * n)` draws (draw `k` reduced mod the pool size),
and startup configuration.  `vapidConfigured` records whether VAPID keys
were present at startup; the sweep itself never consults it. -/
structure Estab where
  id : Nat
  nome : String
  proximaFornada : Option (List FornadaItem)
deriving DecidableEq, Repr

structure SweepLog where
  subLookups : List Nat
  dispatches : List (Nat × Subscription × Payload)
  deleteReqs : List String
  errors : List String
deriving DecidableEq, Repr

def SweepLog.empty : SweepLog := ⟨[], [], [], []⟩

structure SweepEnv where
  vapidConfigured : Bool
  estabs : Except String (List Estab)
  messages : Except String (List String)
  nowMinutes : Int
  subsFor : Nat → Except String (List Subscription)
  pushOutcome : Subscription → PushResult
  deleteOutcome : String → Except String Unit
  randoms : Nat → Nat
  baseUrl : String

/-- The startup VAPID check (src/index.js lines 41-50): both keys truthy
configures web-push, otherwise a single warning is logged. -/
def vapidKeysConfigured (pub priv : Option String) : Bool :=
  jsTruthy pub && jsTruthy priv

def startupWarnings (pub priv : Option String) : List String :=
  if vapidKeysConfigured pub priv then []
  else ["Chaves VAPID não configuradas. O envio de notificações está desabilitado."]

/-- The fallback body used when the message pool is empty. -/
def fallbackMessage (desc : Option String) (time : String) : String :=
  "Uma nova fornada " ++ (if jsTruthy desc then "de " ++ desc.getD "" ++ " " else "") ++
    "sairá às " ++ time ++ ". Não perca!"

/-- The notification payload built on a window match. -/
def mkPayload (env : SweepEnv) (est : Estab) (time : String) (fid : Option String)
    (isAlmostTime : Bool) (body : String) : Payload :=
  { title := if isAlmostTime then "Está saindo agora em " ++ est.nome ++ "!"
             else "Falta 1h para a fornada em " ++ est.nome ++ "!"
    body := body
    icon := "assets/icons/icon-192x192.png"
    defaultUrl := env.baseUrl ++ "/estabelecimento/" ++ toString est.id
    reserveUrl := env.baseUrl ++
      (if jsTruthy fid then "/reservar/" ++ toString est.id ++ "/fornada/" ++ fid.getD ""
       else "/reservar/" ++ toString est.id ++ "/horario/" ++ encodeURIComponent time) }

/-- The body of the `if (subscriptions.length > 0)` block: choose a message
(random pick transformed by `.replace('Pão quentinho', 'Pão quentinho saindo')`,
or the fallback if the pool is empty), build the payload, send to every
subscription, then clean up 410-rejected subscriptions.  Never produces a
tick-aborting error. -/
def dispatchToSubs (env : SweepEnv) (msgs : List String) (est : Estab) (time : String)
    (fid desc : Option String) (isAlmostTime : Bool) (rng : Nat) (log : SweepLog)
    (subs : List Subscription) : Nat × SweepLog × Option String :=
  if subs.isEmpty then (rng, log, none)
  else
    let pick :=
      if msgs.isEmpty then (fallbackMessage desc time, rng)
      else (jsReplaceFirst "Pão quentinho" "Pão quentinho saindo"
              (msgs.getD (env.randoms rng % msgs.length) ""), rng + 1)
    let payload := mkPayload env est time fid isAlmostTime pick.1
    let results := sendBatch env.pushOutcome subs
    let cl := cleanupExpired env.deleteOutcome (subs.zip results)
    (pick.2,
     { log with
        dispatches := log.dispatches ++ subs.map (fun s => (est.id, s, payload))
        deleteReqs := log.deleteReqs ++ cl.1
        errors := log.errors ++ cl.2 },
     none)

/-- One `fornadaItem` of the inner loop: hybrid field extraction, the
`if (fornadaTime)` guard, parsing, the window tests, and on a match the
subscription lookup followed by `dispatchToSubs`.  The returned
`Option String` is an exception escaping this unit of work (only the
subscription query can raise here); it propagates to the tick's top-level
catch. -/
def processFornadaItem (env : SweepEnv) (msgs : List String) (est : Estab)
    (item : FornadaItem) (rng : Nat) (log : SweepLog) : Nat × SweepLog × Option String :=
  let f := itemFields item
  if jsTruthy f.1 then
    let time := f.1.getD ""
    let w := winTest (parseFornadaMinutes time) env.nowMinutes
    if w.1 || w.2 then
      match env.subsFor est.id with
      | .error e => (rng, { log with subLookups := log.subLookups ++ [est.id] }, some e)
      | .ok subs =>
          dispatchToSubs env msgs est time f.2.1 f.2.2 w.2 rng
            { log with subLookups := log.subLookups ++ [est.id] } subs
    else (rng, log, none)
  else (rng, log, none)

/-- The `for (const fornadaItem of fornadas)` loop: a raised exception
skips the remaining items (it propagates out of the loop). -/
def processFornadas (env : SweepEnv) (msgs : List String) (est : Estab) :
    List FornadaItem → Nat → SweepLog → Nat × SweepLog × Option String
  | [], rng, log => (rng, log, none)
  | it :: its, rng, log =>
      match processFornadaItem env msgs est it rng log with
      | (rng', log', none) => processFornadas env msgs est its rng' log'
      | (rng', log', some e) => (rng', log', some e)

/-- One establishment of the outer loop:
`if (!fornadas || fornadas.length === 0) continue;` then the item loop. -/
def processEstab (env : SweepEnv) (msgs : List String) (est : Estab) (rng : Nat)
    (log : SweepLog) : Nat × SweepLog × Option String :=
  match est.proximaFornada with
  | none => (rng, log, none)
  | some fs => if fs.isEmpty then (rng, log, none) else processFornadas env msgs est fs rng log

/-- The `for (const est of estabelecimentos)` loop: an exception raised
while processing one establishment propagates immediately, skipping the
remaining establishments. -/
def runEstabs (env : SweepEnv) (msgs : List String) :
    List Estab → Nat → SweepLog → Nat × SweepLog × Option String
  | [], rng, log => (rng, log, none)
  | e :: es, rng, log =>
      match processEstab env msgs e rng log with
      | (rng', log', none) => runEstabs env msgs es rng' log'
      | (rng', log', some err) => (rng', log', some err)

/-- The whole tick: the two storage reads, the establishment loop, and the
single top-level `try/catch` that logs any escaped exception and ends the
tick. -/
def checkFornadasAndNotify (env : SweepEnv) : SweepLog :=
  match env.estabs with
  | .error e => { SweepLog.empty with errors := [e] }
  | .ok ests =>
      match env.messages with
      | .error e => { SweepLog.empty with errors := [e] }
      | .ok msgs =>
          match runEstabs env msgs ests 0 SweepLog.empty with
          | (_, log, none) => log
          | (_, log, some e) => { log with errors := log.errors ++ [e] }

/-! ## Subscription storage: POST /api/subscribe (src/index.js lines 593-677)
and the schema of src/migrate.js (unique endpoint index, composite primary
key on the join table) -/

/-- A row of the `subscriptions` table. -/
structure SubRow where
  id : Nat
  userId : Option Nat
  data : Subscription
deriving DecidableEq, Repr

/-- The storage relevant to subscribe/link: the `subscriptions` table, the
`establishment_subscriptions` join table, and the id sequence. -/
structure Store where
  subs : List SubRow
  links : List (Nat × Int)
  nextId : Nat
deriving DecidableEq, Repr

def Store.empty : Store := ⟨[], [], 0⟩

/-- The `DO UPDATE` arm of the upsert applied to the conflicting row `rid`:
`subscription_data = EXCLUDED.subscription_data`,
`user_id = COALESCE(subscriptions.user_id, EXCLUDED.user_id)`. -/
def updRow (data : Subscription) (userId : Option Nat) (rid : Nat) (q : SubRow) : SubRow :=
  if q.id = rid then { q with data := data, userId := q.userId.orElse (fun _ => userId) } else q

/-- `INSERT INTO subscriptions ... ON CONFLICT ((subscription_data->>'endpoint'))
DO UPDATE ... RETURNING id` against the unique endpoint index: returns the
updated table, the advanced id sequence, and the returned id. -/
def upsertSubscription (subs : List SubRow) (nextId : Nat) (data : Subscription)
    (userId : Option Nat) : List SubRow × Nat × Nat :=
  match subs.find? (fun r => r.data.endpoint == data.endpoint) with
  | some r => (subs.map (updRow data userId r.id), nextId, r.id)
  | none => (subs ++ [⟨nextId, userId, data⟩], nextId + 1, nextId)

/-- `INSERT INTO establishment_subscriptions ... ON CONFLICT (subscription_id,
estabelecimento_id) DO NOTHING` against the composite primary key. -/
def linkSubscription (links : List (Nat × Int)) (subId : Nat) (estabId : Int) :
    List (Nat × Int) :=
  if (subId, estabId) ∈ links then links else links ++ [(subId, estabId)]

/-- The storage effect of `POST /api/subscribe`: upsert the subscription,
then link it to the establishment unless the sentinel id `-1` was sent.
(The follow-up owner push notification reads but never writes storage.) -/
def apiSubscribe (st : Store) (data : Subscription) (userId : Option Nat)
    (estabelecimentoId : Int) : Store :=
  let up := upsertSubscription st.subs st.nextId data userId
  { subs := up.1
    nextId := up.2.1
    links := if estabelecimentoId = -1 then st.links
             else linkSubscription st.links up.2.2 estabelecimentoId }

/-- The cleanup delete `DELETE FROM subscriptions WHERE
subscription_data->>'endpoint' = $1` with the schema's `ON DELETE CASCADE`
into the join table. -/
def deleteByEndpoint (st : Store) (ep : String) : Store :=
  let kept := st.subs.filter (fun r => !(r.data.endpoint == ep))
  { subs := kept
    links := st.links.filter (fun pr => (kept.map (fun r => r.id)).contains pr.1)
    nextId := st.nextId }

/-- Stores reachable from an empty database through the write operations the
program performs on these two tables. -/
inductive Reachable : Store → Prop
  | protected empty : Reachable Store.empty
  | subscribe (st : Store) (d : Subscription) (u : Option Nat) (e : Int) :
      Reachable st → Reachable (apiSubscribe st d u e)
  | cleanup (st : Store) (ep : String) :
      Reachable st → Reachable (deleteByEndpoint st ep)

/-! ## POST /api/reserve (src/index.js lines 719-829) -/

structure UserRow where
  id : Nat
  currentPlan : Int
  reserveCount : Int
deriving DecidableEq, Repr

structure Reservation where
  establishmentId : Nat
  userId : Nat
  reservationTime : Option String
deriving DecidableEq, Repr

structure ReserveDb where
  users : List UserRow
  reservations : List Reservation
deriving DecidableEq, Repr

/-- Outcomes of the reserve route: 403 limit-reached, a successful 200 (with
or without an owner to notify), or the 500 of an exception (missing user
row) after `ROLLBACK`. -/
inductive ReserveOutcome
  | limitReached
  | processed
  | serverError
deriving DecidableEq, Repr

/-- `FREE_PLAN_RESERVATION_LIMIT`: the parsed environment value when it
parses to a number, otherwise the default 5 (src/index.js lines 29-30). -/
def freePlanReservationLimit (envLimit : Option Int) : Int :=
  envLimit.getD 5

/-- `fornadas.find(f => f.id === fornadaId)`: a legacy string item has no
`id` property, so it never strictly equals a truthy `fornadaId`. -/
def itemIdMatches (fid : String) : FornadaItem → Bool
  | .legacy _ => false
  | .rich id _ _ => id == some fid

/-- The `if (fornadaId)` block: resolve the reservation time from the
establishment's `details.proximaFornada || []` when a matching fornada id
exists, else keep the request's `reservationTime`.  `estabRow` is `none`
when the establishment query returns no row, otherwise it carries the
`proximaFornada` field (itself possibly absent). -/
def resolveReservationTime (reservationTime fornadaId : Option String)
    (estabRow : Option (Option (List FornadaItem))) : Option String :=
  if jsTruthy fornadaId then
    match estabRow with
    | none => reservationTime
    | some detailsFornadas =>
        match (detailsFornadas.getD []).find? (itemIdMatches (fornadaId.getD "")) with
        | some f => (itemFields f).1
        | none => reservationTime
  else reservationTime

/-- The transactional storage effect of `POST /api/reserve`: look the user
up (`FOR UPDATE`); reject with 403 when
`current_plan === 0 && FREE_PLAN_RESERVATION_LIMIT > 0 && reserve_count >= FREE_PLAN_RESERVATION_LIMIT`
(rolling back, leaving storage untouched); otherwise increment the user's
`reserve_count` and insert one row into `reservations`.  A missing user row
makes the handler throw and roll back (500). -/
def apiReserve (limit : Int) (db : ReserveDb) (userId establishmentId : Nat)
    (reservationTime fornadaId : Option String)
    (estabRow : Option (Option (List FornadaItem))) : ReserveOutcome × ReserveDb :=
  match db.users.find? (fun q => q.id == userId) with
  | none => (.serverError, db)
  | some u =>
      if u.currentPlan = 0 ∧ 0 < limit ∧ u.reserveCount ≥ limit then (.limitReached, db)
      else
        (.processed,
         { users := db.users.map (fun q =>
             if q.id = userId then { q with reserveCount := q.reserveCount + 1 } else q)
           reservations := db.reservations ++
             [⟨establishmentId, userId,
               resolveReservationTime reservationTime fornadaId estabRow⟩] })

/-! ## Concrete fixtures used by counterexamples and witnesses -/

def subA : Subscription := ⟨"https://push.example/ep-a", "keyA"⟩

def subB : Subscription := ⟨"https://push.example/ep-b", "keyB"⟩

def estOne : Estab := ⟨1, "Padaria Um", some [.legacy "16:00"]⟩

def estTwo : Estab := ⟨2, "Padaria Dois", some [.legacy "16:00"]⟩

/-- An establishment whose events are all malformed or time-less. -/
def estBad : Estab :=
  ⟨3, "Padaria Sem Hora", some [.legacy "N/A", .legacy "", .rich (some "a") none (some "bolo")]⟩

def baseEnv : SweepEnv where
  vapidConfigured := true
  estabs := .ok []
  messages := .ok []
  nowMinutes := 900
  subsFor := fun _ => .ok []
  pushOutcome := fun _ => .fulfilled
  deleteOutcome := fun _ => .ok ()
  randoms := fun _ => 0
  baseUrl := ""

/-- Tick in which processing establishment 1 raises a storage error while
establishment 2 has a subscriber and a matching window. -/
def envC2 : SweepEnv :=
  { baseEnv with
      estabs := .ok [estOne, estTwo]
      messages := .ok ["Bom dia"]
      subsFor := fun n => if n = 1 then .error "db down" else .ok [subB] }

def envC2b : SweepEnv := { envC2 with estabs := .ok [estTwo] }

/-- Tick with VAPID keys absent at startup. -/
def envC3 : SweepEnv :=
  { baseEnv with
      vapidConfigured := vapidKeysConfigured none none
      estabs := .ok [estOne]
      subsFor := fun _ => .ok [subA] }

/-- Tick with a one-message pool whose message contains the replaced
phrase. -/
def envC5 : SweepEnv :=
  { baseEnv with
      estabs := .ok [estOne]
      messages := .ok ["Pão quentinho esperando por você!"]
      subsFor := fun _ => .ok [subA] }

/-- Environment for the amended C5 witness: the draw stream picks index 1. -/
def env5w : SweepEnv :=
  { baseEnv with
      subsFor := fun _ => .ok [subA]
      randoms := fun _ => 1 }

def msgs3 : List String := ["Bom dia", "Pão quentinho na área", "Até logo"]

def subs5 : List Subscription :=
  [⟨"e0", "k0"⟩, ⟨"e1", "k1"⟩, ⟨"e2", "k2"⟩, ⟨"e3", "k3"⟩, ⟨"e4", "k4"⟩]

def outcome4 : Subscription → PushResult :=
  fun s => if s = ⟨"e3", "k3"⟩ then .rejected 410 else .fulfilled

def dbC9 : ReserveDb := ⟨[⟨1, 0, 0⟩], []⟩

def dbLim : ReserveDb := ⟨[⟨2, 0, 5⟩], []⟩

def dbOk : ReserveDb := ⟨[⟨3, 1, 10⟩], []⟩

/-! ## Claims C1, C7, C10 -/

/-- C1: for targets and nows in 0..1439, `shouldNotify1h` holds iff `now`
is in `[target-60, target-55)`, `shouldNotify5min` holds iff `now` is in
`[target-5, target)`, and the two are never both true for one target. -/
theorem c1_window_eval (target now : Int)
    (h1 : 0 ≤ target) (h2 : target ≤ 1439) (h3 : 0 ≤ now) (h4 : now ≤ 1439) :
    (shouldNotify1h target now = true ↔ (target - 60 ≤ now ∧ now < target - 55)) ∧
    (shouldNotify5min target now = true ↔ (target - 5 ≤ now ∧ now < target)) ∧
    ¬(shouldNotify1h target now = true ∧ shouldNotify5min target now = true) := by
  simp only [shouldNotify1h, shouldNotify5min, Bool.and_eq_true, decide_eq_true_eq]
  omega

theorem c1_window_eval_witness :
    ((0 : Int) ≤ 1080 ∧ (1080 : Int) ≤ 1439 ∧ (0 : Int) ≤ 1020 ∧ (1020 : Int) ≤ 1439) ∧
    ((shouldNotify1h 1080 1020 = true ↔ ((1080 : Int) - 60 ≤ 1020 ∧ (1020 : Int) < 1080 - 55)) ∧
     (shouldNotify5min 1080 1020 = true ↔ ((1080 : Int) - 5 ≤ 1020 ∧ (1020 : Int) < 1080)) ∧
     ¬(shouldNotify1h 1080 1020 = true ∧ shouldNotify5min 1080 1020 = true)) :=
  ⟨by decide, c1_window_eval 1080 1020 (by decide) (by decide) (by decide) (by decide)⟩

/-- C7: a legacy bare-string event and a rich object event carrying the same
time string are evaluated identically by the window pipeline, for every time
string and every current minute. -/
theorem c7_shape_equiv (t : String) (id desc : Option String) (now : Int) :
    itemWindows (FornadaItem.legacy t) now = itemWindows (FornadaItem.rich id (some t) desc) now :=
  rfl

/-- C10 counterexample: the claim says the one-hour window is always false
on 0..1439 whenever `targetMinutes < 60`, and the five-minute window always
false whenever `targetMinutes < 5`; but with target 59 (00:59) the one-hour
test fires at now = 0, and with target 4 (00:04) the five-minute test fires
at now = 0. -/
theorem c10_wrap_cex :
    ((59 : Int) < 60 ∧ (0 : Int) ≤ 0 ∧ (0 : Int) ≤ 1439 ∧ shouldNotify1h 59 0 = true) ∧
    ((4 : Int) < 5 ∧ shouldNotify5min 4 0 = true) := by
  decide

/-- C10 amended: the window arithmetic performs no midnight wraparound, so
the one-hour test is identically false over 0..1439 exactly for targets
with `targetMinutes ≤ 55` (for targets 56..59 the residue `[0, target-55)`
of the window still fires), and the five-minute test is identically false
exactly for `targetMinutes ≤ 0`. -/
theorem c10_amended_nowrap :
    (∀ target now : Int, 0 ≤ now → target ≤ 55 → shouldNotify1h target now = false) ∧
    (∀ target now : Int, 0 ≤ now → target ≤ 0 → shouldNotify5min target now = false) := by
  constructor
  · intro target now hn ht
    simp only [shouldNotify1h, Bool.and_eq_false_iff, decide_eq_false_iff_not, not_lt, not_le]
    omega
  · intro target now hn ht
    simp only [shouldNotify5min, Bool.and_eq_false_iff, decide_eq_false_iff_not, not_lt, not_le]
    omega

theorem c10_amended_nowrap_witness :
    (((0 : Int) ≤ 100 ∧ (30 : Int) ≤ 55) ∧ shouldNotify1h 30 100 = false) ∧
    (((0 : Int) ≤ 100 ∧ (0 : Int) ≤ 0) ∧ shouldNotify5min 0 100 = false) :=
  ⟨⟨by decide, c10_amended_nowrap.1 30 100 (by decide) (by decide)⟩,
   ⟨by decide, c10_amended_nowrap.2 0 100 (by decide) (by decide)⟩⟩

/-! ## Helper lemmas about the sweep loops -/

theorem runEstabs_append (env : SweepEnv) (msgs : List String) (l1 l2 : List Estab)
    (rng : Nat) (log : SweepLog) :
    runEstabs env msgs (l1 ++ l2) rng log =
      match runEstabs env msgs l1 rng log with
      | (rng2, log2, none) => runEstabs env msgs l2 rng2 log2
      | (rng2, log2, some e) => (rng2, log2, some e) := by
  induction l1 generalizing rng log with
  | nil => rfl
  | cons a t ih =>
      simp only [List.cons_append, runEstabs]
      rcases hp : processEstab env msgs a rng log with ⟨rng2, log2, err⟩
      cases err with
      | none => exact ih rng2 log2
      | some e => rfl

/-- The tick body once both storage reads succeed. -/
theorem checkFornadas_ok (env : SweepEnv) (ests : List Estab) (msgs : List String)
    (hests : env.estabs = .ok ests) (hmsgs : env.messages = .ok msgs) :
    checkFornadasAndNotify env =
      match runEstabs env msgs ests 0 SweepLog.empty with
      | (_, log, none) => log
      | (_, log, some e) => { log with errors := log.errors ++ [e] } := by
  unfold checkFornadasAndNotify
  rw [hests, hmsgs]

/-! ## Claim C2 -/

/-- C2 counterexample: in `envC2` a storage error while processing
establishment 1 aborts the whole tick — establishment 2, which has a
matching window and a subscriber (as the run on `envC2b` shows), is never
looked up and receives no dispatch, contradicting per-establishment failure
isolation. -/
theorem c2_isolation_cex :
    checkFornadasAndNotify envC2 =
      { subLookups := [1], dispatches := [], deleteReqs := [], errors := ["db down"] } ∧
    (checkFornadasAndNotify envC2b).dispatches ≠ [] ∧
    (checkFornadasAndNotify envC2b).subLookups = [2] := by
  refine ⟨by decide, by decide, by decide⟩

/-- C2 amended: an exception raised while processing one establishment is
not contained at that scope; it propagates to the tick's single top-level
catch, where it is logged, and the tick ends early — the remaining
establishments (`post`) are skipped and contribute nothing to the tick's
effects.  The next scheduled tick is an independent run. -/
theorem c2_amended_abort (env : SweepEnv) (msgs : List String) (pre post : List Estab)
    (est : Estab) (rng : Nat) (log : SweepLog) (e : String)
    (hests : env.estabs = .ok (pre ++ est :: post))
    (hmsgs : env.messages = .ok msgs)
    (hpre : runEstabs env msgs pre 0 SweepLog.empty = (rng, log, none))
    (herr : (processEstab env msgs est rng log).2.2 = some e) :
    checkFornadasAndNotify env =
      { (processEstab env msgs est rng log).2.1 with
          errors := (processEstab env msgs est rng log).2.1.errors ++ [e] } := by
  rcases hp : processEstab env msgs est rng log with ⟨rng2, log2, err2⟩
  cases err2 with
  | none => rw [hp] at herr; simp at herr
  | some e2 =>
      rw [hp] at herr
      have he : e2 = e := by simpa using herr
      subst he
      rw [checkFornadas_ok env (pre ++ est :: post) msgs hests hmsgs,
        runEstabs_append, hpre]
      simp only [runEstabs, hp]

theorem c2_amended_abort_witness :
    envC2.estabs = Except.ok ([] ++ estOne :: [estTwo]) ∧
    (processEstab envC2 ["Bom dia"] estOne 0 SweepLog.empty).2.2 = some "db down" ∧
    checkFornadasAndNotify envC2 =
      { (processEstab envC2 ["Bom dia"] estOne 0 SweepLog.empty).2.1 with
          errors :=
            (processEstab envC2 ["Bom dia"] estOne 0 SweepLog.empty).2.1.errors ++
              ["db down"] } :=
  ⟨rfl, by decide,
   c2_amended_abort envC2 ["Bom dia"] [] [estTwo] estOne 0 SweepLog.empty "db down"
     rfl rfl rfl (by decide)⟩

/-! ## Claim C3 -/

/-- C3: with no VAPID keys a warning is logged once at startup and the
sweep still runs — but the dispatch step is NOT skipped: `envC3` has
`vapidConfigured = false`, yet the tick still attempts delivery to the
subscription (`webpush.sendNotification` is called unconditionally in the
source), and the whole tick is oblivious to the flag. -/
theorem c3_vapid_eval :
    startupWarnings none none =
      ["Chaves VAPID não configuradas. O envio de notificações está desabilitado."] ∧
    envC3.vapidConfigured = false ∧
    (checkFornadasAndNotify envC3).dispatches.map (fun d => d.2.1) = [subA] ∧
    (∀ b : Bool,
      checkFornadasAndNotify { envC3 with vapidConfigured := b } =
        checkFornadasAndNotify envC3) := by
  refine ⟨rfl, rfl, by decide, fun b => ?_⟩
  cases b <;> decide

/-! ## Claim C6 -/

/-- An event is malformed in the sense of C6: its time value is absent or
empty (falsy, so the `if (fornadaTime)` guard skips it) or fails to parse
to a number (`NaN`, so neither window comparison can hold). -/
def itemMalformed (it : FornadaItem) : Bool :=
  !(jsTruthy (itemFields it).1) ||
    (parseFornadaMinutes ((itemFields it).1.getD "")).isNone

theorem processFornadaItem_malformed (env : SweepEnv) (msgs : List String) (est : Estab)
    (it : FornadaItem) (rng : Nat) (log : SweepLog) (h : itemMalformed it = true) :
    processFornadaItem env msgs est it rng log = (rng, log, none) := by
  cases htr : jsTruthy (itemFields it).1 with
  | false => simp [processFornadaItem, htr]
  | true =>
      have hp : parseFornadaMinutes ((itemFields it).1.getD "") = none := by
        simp only [itemMalformed, htr, Bool.not_true, Bool.false_or] at h
        exact Option.isNone_iff_eq_none.mp h
      simp [processFornadaItem, htr, hp, winTest]

theorem processFornadas_malformed (env : SweepEnv) (msgs : List String) (est : Estab)
    (fs : List FornadaItem) (rng : Nat) (log : SweepLog)
    (h : ∀ it ∈ fs, itemMalformed it = true) :
    processFornadas env msgs est fs rng log = (rng, log, none) := by
  induction fs generalizing rng log with
  | nil => rfl
  | cons a t ih =>
      simp only [processFornadas,
        processFornadaItem_malformed env msgs est a rng log (h a (by simp))]
      exact ih rng log (fun it hit => h it (by simp [hit]))

/-- C6: an establishment whose fornada list is absent, empty, or made up
entirely of malformed-time events contributes nothing to any tick: no
dispatch, no subscription lookup, no state change and no tick abort, for
every environment (hence every clock value) and every point in the tick. -/
theorem c6_malformed_skip (env : SweepEnv) (msgs : List String) (est : Estab)
    (rng : Nat) (log : SweepLog)
    (h : est.proximaFornada = none ∨
         ∃ fs, est.proximaFornada = some fs ∧ ∀ it ∈ fs, itemMalformed it = true) :
    processEstab env msgs est rng log = (rng, log, none) := by
  rcases h with h | ⟨fs, hfs, hall⟩
  · simp [processEstab, h]
  · rw [processEstab, hfs]
    by_cases he : fs.isEmpty
    · simp [he]
    · simp [he, processFornadas_malformed env msgs est fs rng log hall]

/-! ## Claim C4 -/

theorem zip_map_self {α β : Type} (f : α → β) (l : List α) :
    l.zip (l.map f) = l.map (fun a => (a, f a)) := by
  simpa using List.zip_map' (id : α → α) f l

theorem cleanupExpired_fst (del : String → Except String Unit)
    (l : List (Subscription × PushResult)) :
    (cleanupExpired del l).1 =
      (l.filter (fun p => decide (p.2 = PushResult.rejected 410))).map
        (fun p => p.1.endpoint) := by
  induction l with
  | nil => rfl
  | cons p t ih =>
      rcases p with ⟨s, r⟩
      by_cases h : r = PushResult.rejected 410
      · subst h
        cases hd : del s.endpoint <;>
          simp [cleanupExpired, hd, ih, List.filter_cons]
      · simp [cleanupExpired, h, ih, List.filter_cons]

theorem filter_outcome_singleton (outcome : Subscription → PushResult)
    (subs : List Subscription) (k : Nat) (hk : k < subs.length)
    (h410 : outcome (subs.get ⟨k, hk⟩) = .rejected 410)
    (hok : ∀ (j : Nat) (hj : j < subs.length), j ≠ k →
      outcome (subs.get ⟨j, hj⟩) = .fulfilled) :
    subs.filter (fun s => decide (outcome s = PushResult.rejected 410)) =
      [subs.get ⟨k, hk⟩] := by
  induction subs generalizing k with
  | nil => exact absurd hk (Nat.not_lt_zero k)
  | cons a t ih =>
      cases k with
      | zero =>
          have ha : outcome a = .rejected 410 := h410
          have ht : t.filter (fun s => decide (outcome s = PushResult.rejected 410)) = [] := by
            rw [List.filter_eq_nil_iff]
            intro x hx
            obtain ⟨⟨j, hj⟩, rfl⟩ := List.mem_iff_get.mp hx
            have hj' : outcome (t.get ⟨j, hj⟩) = PushResult.fulfilled :=
              hok (j + 1) (Nat.succ_lt_succ hj) (Nat.succ_ne_zero j)
            simp [List.get_eq_getElem] at hj'
            simp [hj']
          simp [List.filter_cons, ha, ht]
      | succ k' =>
          have ha : outcome a = .fulfilled := hok 0 (Nat.zero_lt_succ _) (by simp)
          have hk' : k' < t.length := Nat.lt_of_succ_lt_succ hk
          have ht := ih k' hk' h410 (fun j hj hne =>
            hok (j + 1) (Nat.succ_lt_succ hj) (by simpa using hne))
          simp [List.filter_cons, ha, ht]

/-- C4: when exactly the subscription at index `k` of a batch is rejected
with 410 and every other one is delivered, the settled results line up
index-by-index with the input subscriptions, the cleanup issues exactly one
delete — for that subscription's endpoint — no matter how deletes behave,
and the dispatch step never raises a tick-aborting error (delete failures
are only logged). -/
theorem c4_dispatch_batch (outcome : Subscription → PushResult)
    (subs : List Subscription) (k : Nat) (hk : k < subs.length)
    (h410 : outcome (subs.get ⟨k, hk⟩) = .rejected 410)
    (hok : ∀ (j : Nat) (hj : j < subs.length), j ≠ k →
      outcome (subs.get ⟨j, hj⟩) = .fulfilled) :
    (∀ j : Nat, (sendBatch outcome subs).get? j = (subs.get? j).map outcome) ∧
    (∀ del : String → Except String Unit,
      (cleanupExpired del (subs.zip (sendBatch outcome subs))).1 =
        [(subs.get ⟨k, hk⟩).endpoint]) ∧
    (∀ (env : SweepEnv) (msgs : List String) (est : Estab) (time : String)
        (fid desc : Option String) (alm : Bool) (rng : Nat) (log : SweepLog),
      (dispatchToSubs env msgs est time fid desc alm rng log subs).2.2 = none) := by
  refine ⟨fun j => List.get?_map outcome subs j, fun del => ?_, ?_⟩
  · rw [sendBatch, zip_map_self, cleanupExpired_fst, List.filter_map]
    have hcomp : (fun (p : Subscription × PushResult) =>
          decide (p.2 = PushResult.rejected 410)) ∘ (fun a => (a, outcome a)) =
        fun s => decide (outcome s = PushResult.rejected 410) := rfl
    rw [hcomp, filter_outcome_singleton outcome subs k hk h410 hok]
    rfl
  · intro env msgs est time fid desc alm rng log
    by_cases h : subs.isEmpty <;> simp [dispatchToSubs, h]

theorem c4_dispatch_batch_witness :
    outcome4 (subs5.get ⟨3, by decide⟩) = PushResult.rejected 410 ∧
    (cleanupExpired (fun _ => Except.error "delete failed")
        (subs5.zip (sendBatch outcome4 subs5))).1 =
      [(subs5.get ⟨3, by decide⟩).endpoint] ∧
    (dispatchToSubs baseEnv [] estOne "16:00" none none true 0 SweepLog.empty
        subs5).2.2 = none :=
  have h := c4_dispatch_batch outcome4 subs5 3 (by decide) (by decide) (by decide)
  ⟨by decide, h.2.1 (fun _ => Except.error "delete failed"),
   h.2.2 baseEnv [] estOne "16:00" none none true 0 SweepLog.empty⟩

/-! ## Claim C5 -/

/-- C5 counterexample: with the one-message pool of `envC5` and random
index 0, the dispatched body is the pool message with its leading
"Pão quentinho" rewritten to "Pão quentinho saindo" — a string that is not
a member of the pool, refuting "the notification body sent is a member of
the pool". -/
theorem c5_body_cex :
    envC5.messages = Except.ok ["Pão quentinho esperando por você!"] ∧
    ((checkFornadasAndNotify envC5).dispatches.map (fun d => d.2.2.body)) =
      ["Pão quentinho saindo esperando por você!"] ∧
    "Pão quentinho saindo esperando por você!" ∉
      ["Pão quentinho esperando por você!"] := by
  refine ⟨rfl, by decide, by decide⟩

/-- C5 amended: on a window match with a non-empty pool and at least one
subscriber, for every possible random draw landing on index `i` the
dispatched body equals the pool's `i`-th message transformed by
`.replace('Pão quentinho', 'Pão quentinho saindo')` (first occurrence
only); the pick is otherwise uniform over the pool's indices. -/
theorem c5_amended_body (env : SweepEnv) (msgs : List String) (est : Estab)
    (item : FornadaItem) (rng : Nat) (log : SweepLog) (subs : List Subscription)
    (i : Nat) (hi : i < msgs.length)
    (hwin : ((itemWindows item env.nowMinutes).1 ||
             (itemWindows item env.nowMinutes).2) = true)
    (hsubs : env.subsFor est.id = .ok subs) (hne : subs ≠ [])
    (hdraw : env.randoms rng % msgs.length = i) :
    (processFornadaItem env msgs est item rng log).2.1.dispatches =
      log.dispatches ++ subs.map (fun s => (est.id, s,
        mkPayload env est ((itemFields item).1.getD "") (itemFields item).2.1
          (itemWindows item env.nowMinutes).2
          (jsReplaceFirst "Pão quentinho" "Pão quentinho saindo"
            (msgs.get ⟨i, hi⟩)))) := by
  have htr : jsTruthy (itemFields item).1 = true := by
    cases htr : jsTruthy (itemFields item).1 with
    | true => rfl
    | false => simp [itemWindows, htr] at hwin
  have hwt : ((winTest (parseFornadaMinutes ((itemFields item).1.getD ""))
        env.nowMinutes).1 ||
      (winTest (parseFornadaMinutes ((itemFields item).1.getD ""))
        env.nowMinutes).2) = true := by
    have h2 := hwin
    unfold itemWindows at h2
    rwa [if_pos htr] at h2
  have hne' : subs.isEmpty = false := by
    cases subs with
    | nil => exact absurd rfl hne
    | cons a t => rfl
  have hmne : msgs.isEmpty = false := by
    cases msgs with
    | nil => exact absurd hi (by simp)
    | cons a t => rfl
  have hget : msgs.getD (env.randoms rng % msgs.length) "" = msgs.get ⟨i, hi⟩ := by
    rw [hdraw]
    exact List.getD_eq_get msgs "" hi
  simp only [processFornadaItem, htr, eq_self_iff_true, if_true, hwt, hsubs,
    dispatchToSubs, hne', hmne, Bool.false_eq_true, if_false, hget,
    itemWindows]

theorem c5_amended_body_witness :
    (processFornadaItem env5w msgs3 estOne (FornadaItem.legacy "16:00") 0
        SweepLog.empty).2.1.dispatches =
      SweepLog.empty.dispatches ++ [subA].map (fun s => (estOne.id, s,
        mkPayload env5w estOne ((itemFields (FornadaItem.legacy "16:00")).1.getD "")
          (itemFields (FornadaItem.legacy "16:00")).2.1
          (itemWindows (FornadaItem.legacy "16:00") env5w.nowMinutes).2
          (jsReplaceFirst "Pão quentinho" "Pão quentinho saindo"
            (msgs3.get ⟨1, by decide⟩)))) :=
  c5_amended_body env5w msgs3 estOne (FornadaItem.legacy "16:00") 0 SweepLog.empty
    [subA] 1 (by decide) (by decide) rfl (by decide) (by decide)

theorem c6_malformed_skip_witness :
    estBad.proximaFornada =
      some [.legacy "N/A", .legacy "", .rich (some "a") none (some "bolo")] ∧
    processEstab baseEnv [] estBad 0 SweepLog.empty = (0, SweepLog.empty, none) :=
  ⟨rfl, c6_malformed_skip baseEnv [] estBad 0 SweepLog.empty (Or.inr ⟨_, rfl, by decide⟩)⟩

/-! ## Claim C8 -/

/-- The storage invariant maintained by the subscribe/cleanup operations:
row ids are unique, endpoints are unique (the schema's unique index), and
every id is below the id sequence. -/
def StoreInv (st : Store) : Prop :=
  (st.subs.map (fun r => r.id)).Nodup ∧
  (st.subs.map (fun r => r.data.endpoint)).Nodup ∧
  ∀ r ∈ st.subs, r.id < st.nextId

theorem updRow_id (d : Subscription) (u : Option Nat) (rid : Nat) (q : SubRow) :
    (updRow d u rid q).id = q.id := by
  unfold updRow
  split <;> rfl

theorem upsertSubscription_eq_update (subs : List SubRow) (nextId : Nat)
    (d : Subscription) (u : Option Nat) (r : SubRow)
    (hf : subs.find? (fun q => q.data.endpoint == d.endpoint) = some r) :
    upsertSubscription subs nextId d u = (subs.map (updRow d u r.id), nextId, r.id) := by
  unfold upsertSubscription
  rw [hf]

theorem upsertSubscription_eq_insert (subs : List SubRow) (nextId : Nat)
    (d : Subscription) (u : Option Nat)
    (hf : subs.find? (fun q => q.data.endpoint == d.endpoint) = none) :
    upsertSubscription subs nextId d u = (subs ++ [⟨nextId, u, d⟩], nextId + 1, nextId) := by
  unfold upsertSubscription
  rw [hf]

theorem updRow_endpoint_of_nodup (d : Subscription) (u : Option Nat)
    (subs : List SubRow) (r : SubRow)
    (h1 : (subs.map (fun x => x.id)).Nodup)
    (hf : subs.find? (fun q => q.data.endpoint == d.endpoint) = some r) :
    ∀ q ∈ subs, (updRow d u r.id q).data.endpoint = q.data.endpoint := by
  intro q hq
  by_cases hid : q.id = r.id
  · have hrmem : r ∈ subs := List.mem_of_find?_eq_some hf
    have hqr : q = r := List.inj_on_of_nodup_map h1 hq hrmem hid
    have hrep : r.data.endpoint = d.endpoint := by
      have := List.find?_some hf
      simpa using this
    subst hqr
    simp [updRow, hrep]
  · simp [updRow, hid]

theorem upsertSubscription_inv (subs : List SubRow) (nextId : Nat) (d : Subscription)
    (u : Option Nat)
    (h1 : (subs.map (fun r => r.id)).Nodup)
    (h2 : (subs.map (fun r => r.data.endpoint)).Nodup)
    (h3 : ∀ r ∈ subs, r.id < nextId) :
    ((upsertSubscription subs nextId d u).1.map (fun r => r.id)).Nodup ∧
    ((upsertSubscription subs nextId d u).1.map (fun r => r.data.endpoint)).Nodup ∧
    ∀ r ∈ (upsertSubscription subs nextId d u).1,
      r.id < (upsertSubscription subs nextId d u).2.1 := by
  cases hf : subs.find? (fun q => q.data.endpoint == d.endpoint) with
  | some r =>
      rw [upsertSubscription_eq_update subs nextId d u r hf]
      refine ⟨?_, ?_, ?_⟩
      · rw [List.map_map]
        have hc : ((fun x : SubRow => x.id) ∘ updRow d u r.id) =
            (fun x : SubRow => x.id) := funext (fun q => updRow_id d u r.id q)
        rwa [hc]
      · rw [List.map_map]
        have hc : List.map ((fun x : SubRow => x.data.endpoint) ∘ updRow d u r.id) subs =
            List.map (fun x : SubRow => x.data.endpoint) subs :=
          List.map_congr_left (fun q hq => updRow_endpoint_of_nodup d u subs r h1 hf q hq)
        rw [hc]
        exact h2
      · intro q hq
        obtain ⟨q0, hq0, rfl⟩ := List.mem_map.mp hq
        rw [updRow_id]
        exact h3 q0 hq0
  | none =>
      rw [upsertSubscription_eq_insert subs nextId d u hf]
      refine ⟨?_, ?_, ?_⟩
      · rw [List.map_append, List.nodup_append]
        refine ⟨h1, by simp, fun a ha1 ha2 => ?_⟩
        obtain ⟨q0, hq0, rfl⟩ := List.mem_map.mp ha1
        simp only [List.map_cons, List.map_nil, List.mem_cons, List.not_mem_nil,
          or_false] at ha2
        exact absurd (ha2 ▸ h3 q0 hq0) (lt_irrefl _)
      · rw [List.map_append, List.nodup_append]
        refine ⟨h2, by simp, fun a ha1 ha2 => ?_⟩
        obtain ⟨q0, hq0, rfl⟩ := List.mem_map.mp ha1
        simp only [List.map_cons, List.map_nil, List.mem_cons, List.not_mem_nil,
          or_false] at ha2
        have := List.find?_eq_none.mp hf q0 hq0
        simp [ha2] at this
      · intro q hq
        rcases List.mem_append.mp hq with hq | hq
        · exact Nat.lt_succ_of_lt (h3 q hq)
        · simp only [List.mem_cons, List.not_mem_nil, or_false] at hq
          subst hq
          exact Nat.lt_succ_self nextId

theorem apiSubscribe_inv (st : Store) (d : Subscription) (u : Option Nat) (e : Int)
    (h : StoreInv st) : StoreInv (apiSubscribe st d u e) := by
  obtain ⟨h1, h2, h3⟩ := h
  have hu := upsertSubscription_inv st.subs st.nextId d u h1 h2 h3
  exact ⟨hu.1, hu.2.1, hu.2.2⟩

theorem deleteByEndpoint_inv (st : Store) (ep : String) (h : StoreInv st) :
    StoreInv (deleteByEndpoint st ep) := by
  obtain ⟨h1, h2, h3⟩ := h
  have hsub : List.Sublist (st.subs.filter (fun r => !(r.data.endpoint == ep))) st.subs :=
    List.filter_sublist _
  refine ⟨List.Nodup.sublist (hsub.map _) h1, List.Nodup.sublist (hsub.map _) h2, ?_⟩
  intro r hr
  exact h3 r (List.mem_of_mem_filter hr)

theorem reachable_storeInv (st : Store) (h : Reachable st) : StoreInv st := by
  induction h with
  | empty => exact ⟨List.nodup_nil, List.nodup_nil, by simp [Store.empty]⟩
  | subscribe st d u e hst ih => exact apiSubscribe_inv st d u e ih
  | cleanup st ep hst ih => exact deleteByEndpoint_inv st ep ih

theorem find?_map_updRow (d : Subscription) (u : Option Nat) (l : List SubRow)
    (r : SubRow)
    (hf : l.find? (fun q => q.data.endpoint == d.endpoint) = some r) :
    ∃ r', (l.map (updRow d u r.id)).find? (fun q => q.data.endpoint == d.endpoint) =
        some r' ∧ r'.id = r.id := by
  induction l with
  | nil => simp at hf
  | cons a t ih =>
      cases ha : a.data.endpoint == d.endpoint with
      | true =>
          simp only [List.find?_cons, ha] at hf
          have har : a = r := Option.some.inj hf
          subst har
          have hb : ((updRow d u a.id a).data.endpoint == d.endpoint) = true := by
            simp [updRow]
          exact ⟨updRow d u a.id a,
            by simp only [List.map_cons, List.find?_cons, hb],
            by simp [updRow]⟩
      | false =>
          simp only [List.find?_cons, ha] at hf
          by_cases hid : a.id = r.id
          · have hb : ((updRow d u r.id a).data.endpoint == d.endpoint) = true := by
              simp [updRow, hid]
            exact ⟨updRow d u r.id a,
              by simp only [List.map_cons, List.find?_cons, hb],
              by simp [updRow, hid]⟩
          · obtain ⟨r', hr', hrid⟩ := ih hf
            have hb : ((updRow d u r.id a).data.endpoint == d.endpoint) = false := by
              simp [updRow, hid, ha]
            refine ⟨r', ?_, hrid⟩
            simp only [List.map_cons, List.find?_cons, hb]
            exact hr'

theorem upsert_id_again (subs : List SubRow) (nextId : Nat) (d : Subscription)
    (u : Option Nat) :
    (upsertSubscription (upsertSubscription subs nextId d u).1
        (upsertSubscription subs nextId d u).2.1 d u).2.2 =
      (upsertSubscription subs nextId d u).2.2 := by
  cases hf : subs.find? (fun q => q.data.endpoint == d.endpoint) with
  | some r =>
      obtain ⟨r', hr', hrid⟩ := find?_map_updRow d u subs r hf
      rw [upsertSubscription_eq_update subs nextId d u r hf]
      rw [upsertSubscription_eq_update _ _ d u r' hr']
      exact hrid
  | none =>
      rw [upsertSubscription_eq_insert subs nextId d u hf]
      have hnew : ((subs ++ [⟨nextId, u, d⟩] : List SubRow).find?
          (fun q => q.data.endpoint == d.endpoint)) = some ⟨nextId, u, d⟩ := by
        rw [List.find?_append, hf]
        simp
      rw [upsertSubscription_eq_update _ _ d u _ hnew]

theorem linkSubscription_idem (links : List (Nat × Int)) (i : Nat) (e : Int) :
    linkSubscription (linkSubscription links i e) i e = linkSubscription links i e := by
  unfold linkSubscription
  by_cases h : (i, e) ∈ links
  · simp [h]
  · simp [h, List.mem_append]

theorem apiSubscribe_links_idem (st : Store) (d : Subscription) (u : Option Nat)
    (e : Int) :
    (apiSubscribe (apiSubscribe st d u e) d u e).links = (apiSubscribe st d u e).links := by
  by_cases he : e = -1
  · simp [apiSubscribe, he]
  · simp only [apiSubscribe, if_neg he]
    rw [upsert_id_again]
    exact linkSubscription_idem st.links (upsertSubscription st.subs st.nextId d u).2.2 e

theorem apiSubscribe_length_of_mem (st : Store) (d : Subscription) (u : Option Nat)
    (e : Int) (h : ∃ r ∈ st.subs, r.data.endpoint = d.endpoint) :
    (apiSubscribe st d u e).subs.length = st.subs.length := by
  obtain ⟨r, hr, hep⟩ := h
  cases hf : st.subs.find? (fun q => q.data.endpoint == d.endpoint) with
  | some r2 =>
      simp [apiSubscribe, upsertSubscription_eq_update st.subs st.nextId d u r2 hf]
  | none =>
      exfalso
      have := List.find?_eq_none.mp hf r hr
      simp [hep] at this

/-- C8: the subscribe endpoint is a unique key — every store reachable
through the program's storage writes has pairwise-distinct subscription
endpoints; subscribing with an endpoint that already exists updates in
place and never grows the table; and repeating the same
(subscription, establishment) link leaves the join relation unchanged. -/
theorem c8_subscribe_invariants :
    (∀ st : Store, Reachable st → (st.subs.map (fun r => r.data.endpoint)).Nodup) ∧
    (∀ (st : Store) (d : Subscription) (u : Option Nat) (e : Int),
      (∃ r ∈ st.subs, r.data.endpoint = d.endpoint) →
      (apiSubscribe st d u e).subs.length = st.subs.length) ∧
    (∀ (st : Store) (d : Subscription) (u : Option Nat) (e : Int),
      (apiSubscribe (apiSubscribe st d u e) d u e).links =
        (apiSubscribe st d u e).links) :=
  ⟨fun st h => (reachable_storeInv st h).2.1,
   apiSubscribe_length_of_mem,
   apiSubscribe_links_idem⟩

/-- A small reachable store holding one subscription linked to
establishment 7. -/
def stW : Store := apiSubscribe Store.empty subA (some 4) 7

theorem c8_subscribe_invariants_witness :
    (stW.subs.map (fun r => r.data.endpoint)).Nodup ∧
    stW.subs.length = 1 ∧
    (apiSubscribe stW subA none 7).subs.length = stW.subs.length ∧
    (apiSubscribe (apiSubscribe stW subA none 7) subA none 7).links =
      (apiSubscribe stW subA none 7).links :=
  have hr : Reachable stW := Reachable.subscribe _ _ _ _ Reachable.empty
  ⟨c8_subscribe_invariants.1 stW hr, by decide,
   c8_subscribe_invariants.2.1 stW subA none 7 ⟨⟨0, some 4, subA⟩, by decide, rfl⟩,
   c8_subscribe_invariants.2.2 stW subA none 7⟩

/-! ## Claim C9 -/

/-- C9 counterexample: with the free-plan limit configured to 0 the user on
plan 0 with `reserve_count = 0` has reached the configured limit
(`0 ≥ 0`), yet the code's guard also requires the limit to be positive, so
the request is processed: the counter increments and a reservation row is
recorded — the claim's rejection does not happen. -/
theorem c9_limit_cex :
    freePlanReservationLimit (some 0) = 0 ∧
    dbC9.users = [⟨1, 0, 0⟩] ∧
    (0 : Int) ≥ 0 ∧
    (apiReserve 0 dbC9 1 7 none none none).1 = ReserveOutcome.processed ∧
    (apiReserve 0 dbC9 1 7 none none none).2.users = [⟨1, 0, 1⟩] ∧
    (apiReserve 0 dbC9 1 7 none none none).2.reservations = [⟨7, 1, none⟩] := by
  refine ⟨rfl, rfl, by decide, by decide, by decide, by decide⟩

theorem apiReserve_eq_found (limit : Int) (db : ReserveDb) (uid eid : Nat)
    (rt fid : Option String) (row : Option (Option (List FornadaItem))) (u : UserRow)
    (hfind : db.users.find? (fun q => q.id == uid) = some u) :
    apiReserve limit db uid eid rt fid row =
      if u.currentPlan = 0 ∧ 0 < limit ∧ u.reserveCount ≥ limit then
        (.limitReached, db)
      else
        (.processed,
         { users := db.users.map (fun q =>
             if q.id = uid then { q with reserveCount := q.reserveCount + 1 } else q)
           reservations := db.reservations ++
             [⟨eid, uid, resolveReservationTime rt fid row⟩] }) := by
  unfold apiReserve
  rw [hfind]

/-- C9 amended: a found user on the free plan with a POSITIVE configured
limit and `reserve_count ≥ limit` is rejected with the limit error and the
database is unchanged; every other found user is processed: their
`reserve_count` increments by exactly one and exactly one reservation row
is appended.  A non-positive configured limit disables the quota entirely
(the guard requires `FREE_PLAN_RESERVATION_LIMIT > 0`). -/
theorem c9_amended_reserve (limit : Int) (db : ReserveDb) (uid eid : Nat)
    (rt fid : Option String) (row : Option (Option (List FornadaItem))) (u : UserRow)
    (hfind : db.users.find? (fun q => q.id == uid) = some u) :
    ((u.currentPlan = 0 ∧ 0 < limit ∧ u.reserveCount ≥ limit) →
      apiReserve limit db uid eid rt fid row = (ReserveOutcome.limitReached, db)) ∧
    (¬(u.currentPlan = 0 ∧ 0 < limit ∧ u.reserveCount ≥ limit) →
      (apiReserve limit db uid eid rt fid row).1 = ReserveOutcome.processed ∧
      (apiReserve limit db uid eid rt fid row).2.users.find? (fun q => q.id == uid) =
        some { u with reserveCount := u.reserveCount + 1 } ∧
      (apiReserve limit db uid eid rt fid row).2.reservations =
        db.reservations ++ [⟨eid, uid, resolveReservationTime rt fid row⟩]) := by
  rw [apiReserve_eq_found limit db uid eid rt fid row u hfind]
  constructor
  · intro hcond
    rw [if_pos hcond]
  · intro hcond
    rw [if_neg hcond]
    refine ⟨rfl, ?_, rfl⟩
    rw [List.find?_map]
    have hcomp : ((fun q : UserRow => q.id == uid) ∘ (fun q : UserRow =>
        if q.id = uid then { q with reserveCount := q.reserveCount + 1 } else q)) =
        (fun q : UserRow => q.id == uid) := by
      funext q
      by_cases h : q.id = uid <;> simp [h]
    rw [hcomp, hfind]
    have huid : u.id = uid := by
      have := List.find?_some hfind
      simpa using this
    simp [huid]

theorem c9_amended_reserve_witness :
    apiReserve 5 dbLim 2 7 none none none = (ReserveOutcome.limitReached, dbLim) ∧
    ((apiReserve 5 dbOk 3 7 (some "16:00") none none).1 = ReserveOutcome.processed ∧
     (apiReserve 5 dbOk 3 7 (some "16:00") none none).2.users.find?
        (fun q => q.id == 3) = some ⟨3, 1, 11⟩ ∧
     (apiReserve 5 dbOk 3 7 (some "16:00") none none).2.reservations =
       [] ++ [⟨7, 3, resolveReservationTime (some "16:00") none none⟩]) :=
  ⟨(c9_amended_reserve 5 dbLim 2 7 none none none ⟨2, 0, 5⟩ rfl).1 (by decide),
   (c9_amended_reserve 5 dbOk 3 7 (some "16:00") none none ⟨3, 1, 10⟩ rfl).2 (by decide)⟩

end PaoQuentinho
